import Mathlib

/-!
Shallow embedding of the Gemini chat client (src/types.ts and the service
module src/unnamed/part_000) and proofs about its state transitions.

The React component state is collected into one `AppState` record.  Event
handlers become pure state-transition functions.  Nondeterministic inputs of
the real code (crypto.randomUUID, Date.now, URL.createObjectURL, the upstream
chunk stream, and whether the stream throws) are passed in as explicit
parameters.  JavaScript truthiness on strings (the `||` fallbacks and the
`if (imageBase64)` test) is modelled by explicit emptiness tests.
-/

set_option autoImplicit false

namespace Gemini

/-- Message roles, from the `Role` enum in src/types.ts. -/
inductive Role where
  | user
  | model
  deriving DecidableEq, Repr

/-- A chat message, from the `Message` interface in src/types.ts.  The
optional `image` and `isError` fields become `Option`s (`none` models the
field being absent). -/
structure Message where
  id : String
  role : Role
  text : String
  image : Option String
  timestamp : Nat
  isError : Option Bool
  deriving DecidableEq, Repr

/-- The two model variants, from the `GeminiModel` enum in src/types.ts. -/
inductive GeminiModel where
  | flash
  | pro
  deriving DecidableEq, Repr

/-- The wire name of each model variant (the enum values in src/types.ts). -/
def GeminiModel.wireName : GeminiModel → String
  | .flash => "gemini-3-flash-preview"
  | .pro => "gemini-3-pro-preview"

/-- The provider-side session handle (`Chat` from the SDK): opaque to this
client, determined by the model variant and the system instruction it was
created with. -/
structure Chat where
  model : GeminiModel
  systemInstruction : String
  deriving DecidableEq, Repr

/-- The default system instruction hard-coded in `createChatSession`. -/
def defaultSystemInstruction : String :=
  "You are a helpful, witty, and enthusiastic AI assistant powered by Gemini 3.0. You love to help users with their questions and creative tasks."

/-- JavaScript `String.prototype.trim()`: strip leading and trailing
whitespace (modelled with `Char.isWhitespace`; only emptiness of the result
is ever consumed by the code). -/
def jsTrim (s : String) : String :=
  String.mk (((s.data.dropWhile Char.isWhitespace).reverse.dropWhile
    Char.isWhitespace).reverse)

/-- JavaScript `String.prototype.startsWith`, over the character data. -/
def jsStartsWith (s pre : String) : Bool :=
  pre.data.isPrefixOf s.data

/-- JavaScript `a || b` on strings: the empty string is falsy. -/
def jsOr (a b : String) : String :=
  if a = "" then b else a

/-- JavaScript `a || b` where `a` is a possibly-absent string and `b` is a
constant (used for `systemInstruction || default`). -/
def jsOrOpt (a : Option String) (b : String) : String :=
  match a with
  | some s => jsOr s b
  | none => b

/-- JavaScript `a || undefined` on a possibly-absent string (used for
`currentPreview || undefined`): the empty string collapses to `undefined`. -/
def jsOrUndefined (a : Option String) : Option String :=
  match a with
  | some s => if s = "" then none else some s
  | none => none

/-- `createChatSession` from the service module: a pure factory producing a
session for the given model, with the default system instruction when none is
supplied (or when the supplied one is the empty string, per `||`). -/
def createChatSession (model : GeminiModel) (systemInstruction : Option String) : Chat :=
  { model := model
    systemInstruction := jsOrOpt systemInstruction defaultSystemInstruction }

/-- A file picked in the file input: its MIME type (`file.type`) and the
base64 encoding `fileToGenerativePart` produces for it (the data-URL payload
after the comma, which is empty for a zero-byte file). -/
structure JSFile where
  ftype : String
  base64 : String
  deriving DecidableEq, Repr

/-- `fileToGenerativePart` from the service module, on the success path:
yields the file's base64 data (the data URL with its prefix stripped). -/
def fileToGenerativePart (f : JSFile) : String :=
  f.base64

/-- One part of a multi-part request, as built in `sendMessageStream`. -/
inductive Part where
  | text (s : String)
  | inlineData (mimeType : String) (data : String)
  deriving DecidableEq, Repr

/-- The payload handed to `chat.sendMessageStream`: either a plain string
message or a user-role parts array. -/
inductive SendPayload where
  | plain (message : String)
  | multi (role : String) (parts : List Part)
  deriving DecidableEq, Repr

/-- An upstream chunk as seen through the SDK's `.text` accessor: `none`
models a chunk with no textual content. -/
structure GenerateContentResponse where
  text : Option String
  deriving DecidableEq, Repr

/-- The `if (c.text) yield c.text` filter in `sendMessageStream`: a chunk is
yielded exactly when its text is present and non-empty (JS truthiness). -/
def chunkYield (c : GenerateContentResponse) : Option String :=
  match c.text with
  | some t => if t = "" then none else some t
  | none => none

/-- The request payload built in `sendMessageStream`: `if (imageBase64)` is a
truthiness test, so an absent or EMPTY base64 string takes the plain-text
branch; otherwise the parts array `[{text}, {inlineData}]` is sent with role
`user`. -/
def buildPayload (message : String) (imageBase64 : Option String) (mimeType : String) :
    SendPayload :=
  match imageBase64 with
  | some data =>
    if data = "" then SendPayload.plain message
    else SendPayload.multi "user" [Part.text message, Part.inlineData mimeType data]
  | none => SendPayload.plain message

/-- `sendMessageStream` from the service module, as a function of the chunks
the provider delivers: returns the payload it sends and the list of text
fragments it yields (chunks with empty or absent text are skipped).  The
`mimeType` parameter defaults to `image/jpeg` when the caller passes
`undefined`. -/
def sendMessageStream (_chat : Chat) (message : String) (imageBase64 : Option String)
    (mimeTypeArg : Option String) (upstream : List GenerateContentResponse) :
    SendPayload × List String :=
  let mimeType := mimeTypeArg.getD "image/jpeg"
  (buildPayload message imageBase64 mimeType, upstream.filterMap chunkYield)

/-- The whole React component state of `App` in src/types.ts. -/
structure AppState where
  messages : List Message
  inputValue : String
  isLoading : Bool
  selectedModel : GeminiModel
  selectedImage : Option JSFile
  imagePreview : Option String
  chatSession : Option Chat
  deriving DecidableEq, Repr

/-- `handleClearChat`: reset the message list to a single fresh greeting and
create a new session for the currently selected model.  The fresh id
(crypto.randomUUID) and timestamp (Date.now) arrive as parameters. -/
def handleClearChat (st : AppState) (freshId : String) (ts : Nat) : AppState :=
  { st with
      messages := [{ id := freshId, role := Role.model,
                     text := "Clean slate! Ready when you are.",
                     image := none, timestamp := ts, isError := none }]
      chatSession := some (createChatSession st.selectedModel none) }

/-- The alert text in `handleFileSelect` for a non-image file. -/
def nonImageAlert : String := "Please select an image file."

/-- `handleFileSelect`: `e.target.files?.[0]` may be absent; a file whose
type does not start with `image/` raises an alert and changes nothing; an
image file is stored together with its object-URL preview (passed in, since
`URL.createObjectURL` is nondeterministic).  Returns the new state and the
alert raised, if any. -/
def handleFileSelect (st : AppState) (file : Option JSFile) (previewUrl : String) :
    AppState × Option String :=
  match file with
  | none => (st, none)
  | some f =>
    if jsStartsWith f.ftype "image/" then
      ({ st with selectedImage := some f, imagePreview := some previewUrl }, none)
    else
      (st, some nonImageAlert)

/-- A model-variant change: `setSelectedModel` followed by the
`useEffect([selectedModel])` that re-runs `startNewChat`, which replaces the
session ref with `createChatSession(selectedModel)`. -/
def handleModelChange (st : AppState) (m : GeminiModel) : AppState :=
  { st with
      selectedModel := m
      chatSession := some (createChatSession m none) }

/-- The fresh identifiers and timestamps a single `handleSendMessage` call
draws from crypto.randomUUID and Date.now. -/
structure SendFresh where
  userMessageId : String
  modelMessageId : String
  userTs : Nat
  placeholderTs : Nat
  deriving DecidableEq, Repr

/-- Whether the upstream stream, after delivering its chunks, completes
normally or throws. -/
inductive StreamOutcome where
  | ok
  | err
  deriving DecidableEq, Repr

/-- The user message appended by `handleSendMessage`: untrimmed input text,
the preview as image (with `|| undefined` collapsing an empty preview). -/
def newUserMessage (st : AppState) (fresh : SendFresh) : Message :=
  { id := fresh.userMessageId
    role := Role.user
    text := st.inputValue
    image := jsOrUndefined st.imagePreview
    timestamp := fresh.userTs
    isError := none }

/-- The empty model placeholder appended by `handleSendMessage` before the
stream is consumed. -/
def modelPlaceholder (fresh : SendFresh) : Message :=
  { id := fresh.modelMessageId
    role := Role.model
    text := ""
    image := none
    timestamp := fresh.placeholderTs
    isError := none }

/-- The message list right after the two appends in `handleSendMessage`
(user message, then empty placeholder), before any chunk arrives. -/
def messagesBeforeStream (st : AppState) (fresh : SendFresh) : List Message :=
  st.messages ++ [newUserMessage st fresh] ++ [modelPlaceholder fresh]

/-- The per-chunk `setMessages` update: rewrite the text of every message
whose id equals the placeholder id, leave every other message untouched. -/
def updateMessageText (msgs : List Message) (mid : String) (newText : String) :
    List Message :=
  msgs.map fun m => if m.id = mid then { m with text := newText } else m

/-- The fixed error string written into the placeholder on a stream error. -/
def errorText : String :=
  "Sorry, something went wrong. Please check your connection or API key."

/-- The catch-branch `setMessages` update: overwrite the placeholder's text
with the fixed error string and set its `isError` flag. -/
def setErrorMessage (msgs : List Message) (mid : String) : List Message :=
  msgs.map fun m =>
    if m.id = mid then { m with text := errorText, isError := some true } else m

/-- The `for await` loop of `handleSendMessage`: `fullResponse += chunk`
followed by a full-replace update of the placeholder, for each fragment in
arrival order.  `acc` is the value of `fullResponse` so far. -/
def foldFragments (mid : String) (acc : String) (msgs : List Message) :
    List String → List Message
  | [] => msgs
  | f :: fs => foldFragments mid (acc ++ f) (updateMessageText msgs mid (acc ++ f)) fs

/-- `handleSendMessage`, as a function of the state, the fresh ids and
timestamps, the upstream chunks delivered before the stream ends, and whether
the stream then completes or throws.  Returns the final state together with
the payload sent upstream (`none` when the submission is rejected by the
guard and no stream is opened). -/
def handleSendMessage (st : AppState) (fresh : SendFresh)
    (upstream : List GenerateContentResponse) (outcome : StreamOutcome) :
    AppState × Option SendPayload :=
  if (jsTrim st.inputValue = "" ∧ st.selectedImage = none) ∨ st.isLoading = true then
    (st, none)
  else
    let currentText := st.inputValue
    let currentImage := st.selectedImage
    let imageBase64 := currentImage.map fileToGenerativePart
    let chat := st.chatSession.getD (createChatSession st.selectedModel none)
    let message := jsOr currentText
      (match currentImage with
       | some _ => "What is in this image?"
       | none => "Hello")
    let stream :=
      sendMessageStream chat message imageBase64 (currentImage.map JSFile.ftype) upstream
    let streamedMsgs :=
      foldFragments fresh.modelMessageId "" (messagesBeforeStream st fresh) stream.2
    let finalMsgs :=
      match outcome with
      | StreamOutcome.ok => streamedMsgs
      | StreamOutcome.err => setErrorMessage streamedMsgs fresh.modelMessageId
    ({ st with
        messages := finalMsgs
        inputValue := ""
        isLoading := false
        selectedImage := none
        imagePreview := none
        chatSession := some chat },
     some stream.1)

/-- Concatenation of a fragment list, for stating the accumulation claims. -/
def concatFragments : List String → String
  | [] => ""
  | f :: fs => f ++ concatFragments fs

/-- Look a message up by id, as the per-chunk updates do (`msg.id ===
modelMessageId` picks the first, and in the intended runs the only, match). -/
def findMsg (msgs : List Message) (mid : String) : Option Message :=
  msgs.find? fun m => m.id == mid

/-- The initial welcome message of the component (initial `useState`). -/
def welcomeMessage (ts : Nat) : Message :=
  { id := "welcome"
    role := Role.model
    text := "Hi there! I'm your Gemini 3.0 powered assistant. I can see images and chat about almost anything. How can I help you today?"
    image := none
    timestamp := ts
    isError := none }

/-- Sample state: a plain text submission is pending. -/
def stSend : AppState :=
  { messages := [welcomeMessage 0]
    inputValue := "Hello"
    isLoading := false
    selectedModel := GeminiModel.flash
    selectedImage := none
    imagePreview := none
    chatSession := none }

/-- Sample fresh identifiers for a send. -/
def freshW : SendFresh :=
  { userMessageId := "user-1", modelMessageId := "model-1", userTs := 1, placeholderTs := 2 }

/-- Sample upstream chunks: two textual chunks around an empty and an absent
one. -/
def upW : List GenerateContentResponse :=
  [{ text := some "Hi" }, { text := none }, { text := some "" }, { text := some " there!" }]

/-- Sample image file with non-empty base64 data. -/
def imgFileW : JSFile := { ftype := "image/png", base64 := "QUJD" }

/-- Sample zero-byte image file: its base64 encoding is the empty string. -/
def emptyImgFileW : JSFile := { ftype := "image/png", base64 := "" }

/-- Sample non-image file. -/
def textFileW : JSFile := { ftype := "text/plain", base64 := "QUJD" }

/-- Sample state: an image-only submission is pending. -/
def stImgSend : AppState :=
  { stSend with inputValue := "", selectedImage := some imgFileW, imagePreview := some "blob:1" }

/-- Sample state: an image-only submission whose attached image is a
zero-byte file (empty base64 encoding). -/
def stEmptyImgSend : AppState :=
  { stSend with inputValue := "", selectedImage := some emptyImgFileW,
                imagePreview := some "blob:2" }

/-- Sample state: a send is already in flight. -/
def stLoading : AppState := { stSend with isLoading := true }

/-- Sample state: whitespace-only input and no image. -/
def stBlank : AppState := { stSend with inputValue := "   " }

/-! ## Helper lemmas -/

theorem map_id_of_ne (xs : List Message) (mid : String) (f : Message → Message)
    (hxs : ∀ m ∈ xs, m.id ≠ mid) :
    (xs.map fun m => if m.id = mid then f m else m) = xs := by
  induction xs with
  | nil => rfl
  | cons a as ih =>
    have ha : ¬ (a.id = mid) := hxs a (by simp)
    simp only [List.map_cons, if_neg ha, List.cons.injEq, true_and]
    exact ih fun m hm => hxs m (by simp [hm])

theorem updateMessageText_append (mid : String) (xs : List Message) (p : Message)
    (t : String) (hxs : ∀ m ∈ xs, m.id ≠ mid) (hp : p.id = mid) :
    updateMessageText (xs ++ [p]) mid t = xs ++ [{ p with text := t }] := by
  simp only [updateMessageText, List.map_append, List.map_cons, List.map_nil, if_pos hp]
  rw [map_id_of_ne xs mid _ hxs]

theorem setErrorMessage_append (mid : String) (xs : List Message) (p : Message)
    (hxs : ∀ m ∈ xs, m.id ≠ mid) (hp : p.id = mid) :
    setErrorMessage (xs ++ [p]) mid
      = xs ++ [{ p with text := errorText, isError := some true }] := by
  simp only [setErrorMessage, List.map_append, List.map_cons, List.map_nil, if_pos hp]
  rw [map_id_of_ne xs mid _ hxs]

theorem foldFragments_append (mid : String) (xs : List Message)
    (hxs : ∀ m ∈ xs, m.id ≠ mid) (frags : List String) :
    ∀ (acc : String) (p : Message), p.id = mid → p.text = acc →
      foldFragments mid acc (xs ++ [p]) frags
        = xs ++ [{ p with text := acc ++ concatFragments frags }] := by
  induction frags with
  | nil =>
    intro acc p hp ht
    cases p
    simp_all [foldFragments, concatFragments]
  | cons f fs ih =>
    intro acc p hp ht
    rw [foldFragments, updateMessageText_append mid xs p (acc ++ f) hxs hp]
    rw [ih (acc ++ f) { p with text := acc ++ f } hp rfl]
    simp [concatFragments, String.append_assoc]

theorem findMsg_append_last (xs : List Message) (p : Message) (mid : String)
    (hxs : ∀ m ∈ xs, m.id ≠ mid) (hp : p.id = mid) :
    findMsg (xs ++ [p]) mid = some p := by
  induction xs with
  | nil => simp [findMsg, hp]
  | cons a as ih =>
    have ha : ¬ (a.id = mid) := hxs a (by simp)
    simpa [findMsg, ha] using ih fun m hm => hxs m (by simp [hm])

theorem fresh_id_not_in_earlier (st : AppState) (fresh : SendFresh)
    (hfresh : ∀ m ∈ st.messages, m.id ≠ fresh.modelMessageId)
    (hids : fresh.userMessageId ≠ fresh.modelMessageId) :
    ∀ m ∈ st.messages ++ [newUserMessage st fresh], m.id ≠ fresh.modelMessageId := by
  intro m hm
  rcases List.mem_append.mp hm with h | h
  · exact hfresh m h
  · simp only [List.mem_singleton] at h
    subst h
    simpa [newUserMessage] using hids

theorem placeholder_after_fold (st : AppState) (fresh : SendFresh)
    (hfresh : ∀ m ∈ st.messages, m.id ≠ fresh.modelMessageId)
    (hids : fresh.userMessageId ≠ fresh.modelMessageId) (frags : List String) :
    foldFragments fresh.modelMessageId "" (messagesBeforeStream st fresh) frags
      = st.messages ++ [newUserMessage st fresh]
          ++ [{ modelPlaceholder fresh with text := concatFragments frags }] := by
  have h := foldFragments_append fresh.modelMessageId
    (st.messages ++ [newUserMessage st fresh])
    (fresh_id_not_in_earlier st fresh hfresh hids) frags ""
    (modelPlaceholder fresh) rfl rfl
  simpa [messagesBeforeStream, modelPlaceholder] using h

theorem findMsg_after_fold (st : AppState) (fresh : SendFresh)
    (hfresh : ∀ m ∈ st.messages, m.id ≠ fresh.modelMessageId)
    (hids : fresh.userMessageId ≠ fresh.modelMessageId) (frags : List String) :
    findMsg (foldFragments fresh.modelMessageId "" (messagesBeforeStream st fresh) frags)
        fresh.modelMessageId
      = some { modelPlaceholder fresh with text := concatFragments frags } := by
  rw [placeholder_after_fold st fresh hfresh hids frags]
  exact findMsg_append_last _ _ _ (fresh_id_not_in_earlier st fresh hfresh hids) rfl

theorem handleSendMessage_ok_messages (st : AppState) (fresh : SendFresh)
    (upstream : List GenerateContentResponse)
    (haccept : ¬ ((jsTrim st.inputValue = "" ∧ st.selectedImage = none) ∨ st.isLoading = true)) :
    (handleSendMessage st fresh upstream StreamOutcome.ok).1.messages
      = foldFragments fresh.modelMessageId "" (messagesBeforeStream st fresh)
          (upstream.filterMap chunkYield) := by
  rw [handleSendMessage, if_neg haccept]
  rfl

theorem handleSendMessage_err_messages (st : AppState) (fresh : SendFresh)
    (upstream : List GenerateContentResponse)
    (haccept : ¬ ((jsTrim st.inputValue = "" ∧ st.selectedImage = none) ∨ st.isLoading = true)) :
    (handleSendMessage st fresh upstream StreamOutcome.err).1.messages
      = setErrorMessage
          (foldFragments fresh.modelMessageId "" (messagesBeforeStream st fresh)
            (upstream.filterMap chunkYield))
          fresh.modelMessageId := by
  rw [handleSendMessage, if_neg haccept]
  rfl

theorem handleSendMessage_isLoading (st : AppState) (fresh : SendFresh)
    (upstream : List GenerateContentResponse) (outcome : StreamOutcome)
    (haccept : ¬ ((jsTrim st.inputValue = "" ∧ st.selectedImage = none) ∨ st.isLoading = true)) :
    (handleSendMessage st fresh upstream outcome).1.isLoading = false := by
  rw [handleSendMessage, if_neg haccept]

theorem handleSendMessage_payload (st : AppState) (fresh : SendFresh)
    (upstream : List GenerateContentResponse) (outcome : StreamOutcome)
    (haccept : ¬ ((jsTrim st.inputValue = "" ∧ st.selectedImage = none) ∨ st.isLoading = true)) :
    (handleSendMessage st fresh upstream outcome).2
      = some (buildPayload
          (jsOr st.inputValue
            (match st.selectedImage with
             | some _ => "What is in this image?"
             | none => "Hello"))
          (st.selectedImage.map fileToGenerativePart)
          ((st.selectedImage.map JSFile.ftype).getD "image/jpeg")) := by
  rw [handleSendMessage, if_neg haccept]
  rfl

/-! ## The claims -/

/-- C1: for every finite sequence of non-empty text fragments yielded by the
stream, when the stream completes without error the placeholder model
message's final text is the concatenation of the fragments in arrival order,
and after each fragment (each prefix of the fragment list) the placeholder
holds the concatenation of the fragments received so far. -/
theorem send_stream_accumulates (st : AppState) (fresh : SendFresh)
    (upstream : List GenerateContentResponse)
    (haccept : ¬ ((jsTrim st.inputValue = "" ∧ st.selectedImage = none) ∨ st.isLoading = true))
    (hfresh : ∀ m ∈ st.messages, m.id ≠ fresh.modelMessageId)
    (hids : fresh.userMessageId ≠ fresh.modelMessageId) :
    (findMsg (handleSendMessage st fresh upstream StreamOutcome.ok).1.messages
        fresh.modelMessageId).map Message.text
      = some (concatFragments (upstream.filterMap chunkYield))
    ∧ ∀ k : Nat,
        (findMsg (foldFragments fresh.modelMessageId "" (messagesBeforeStream st fresh)
            ((upstream.filterMap chunkYield).take k)) fresh.modelMessageId).map Message.text
          = some (concatFragments ((upstream.filterMap chunkYield).take k)) := by
  constructor
  · rw [handleSendMessage_ok_messages st fresh upstream haccept,
      findMsg_after_fold st fresh hfresh hids]
    rfl
  · intro k
    rw [findMsg_after_fold st fresh hfresh hids]
    rfl

/-- Witness for C1 at a concrete send: the chunks "Hi" and " there!" (with an
empty and an absent chunk interleaved) finalize the placeholder as
"Hi there!". -/
theorem send_stream_accumulates_witness :
    (findMsg (handleSendMessage stSend freshW upW StreamOutcome.ok).1.messages
        freshW.modelMessageId).map Message.text = some "Hi there!" := by
  have h := (send_stream_accumulates stSend freshW upW (by decide) (by decide) (by decide)).1
  rw [h]
  rfl

/-- C2: if the stream throws after yielding any number of fragments, the
placeholder's final text is exactly the fixed error string (partial fragments
are discarded), its isError flag is true, the loading flag is cleared, and
every other message — the prior history and the just-appended user message —
is unchanged. -/
theorem send_stream_error_state (st : AppState) (fresh : SendFresh)
    (upstream : List GenerateContentResponse)
    (haccept : ¬ ((jsTrim st.inputValue = "" ∧ st.selectedImage = none) ∨ st.isLoading = true))
    (hfresh : ∀ m ∈ st.messages, m.id ≠ fresh.modelMessageId)
    (hids : fresh.userMessageId ≠ fresh.modelMessageId) :
    (handleSendMessage st fresh upstream StreamOutcome.err).1.messages
      = st.messages ++ [newUserMessage st fresh]
          ++ [{ modelPlaceholder fresh with text := errorText, isError := some true }]
    ∧ (handleSendMessage st fresh upstream StreamOutcome.err).1.isLoading = false := by
  constructor
  · rw [handleSendMessage_err_messages st fresh upstream haccept,
      placeholder_after_fold st fresh hfresh hids,
      setErrorMessage_append fresh.modelMessageId _ _
        (fresh_id_not_in_earlier st fresh hfresh hids) rfl]
  · exact handleSendMessage_isLoading st fresh upstream StreamOutcome.err haccept

/-- Witness for C2 at a concrete send that errors after two fragments. -/
theorem send_stream_error_state_witness :
    (handleSendMessage stSend freshW upW StreamOutcome.err).1.messages
      = stSend.messages ++ [newUserMessage stSend freshW]
          ++ [{ modelPlaceholder freshW with text := errorText, isError := some true }]
    ∧ (handleSendMessage stSend freshW upW StreamOutcome.err).1.isLoading = false :=
  send_stream_error_state stSend freshW upW (by decide) (by decide) (by decide)

/-- C3: when the trimmed input is empty and no image is attached, the
submission is rejected: the state is returned unchanged and no payload is
sent upstream (no stream is opened). -/
theorem empty_submission_rejected (st : AppState) (fresh : SendFresh)
    (upstream : List GenerateContentResponse) (outcome : StreamOutcome)
    (hblank : jsTrim st.inputValue = "") (hnoimg : st.selectedImage = none) :
    handleSendMessage st fresh upstream outcome = (st, none) := by
  rw [handleSendMessage, if_pos (Or.inl ⟨hblank, hnoimg⟩)]

/-- Witness for C3 at a whitespace-only input with no image. -/
theorem empty_submission_rejected_witness :
    handleSendMessage stBlank freshW upW StreamOutcome.ok = (stBlank, none) :=
  empty_submission_rejected stBlank freshW upW StreamOutcome.ok (by decide) (by decide)

/-- C4: while a prior send is in flight (isLoading = true), a submission is
rejected with no state change and no payload sent, so only one placeholder is
ever being mutated at a time. -/
theorem inflight_submission_rejected (st : AppState) (fresh : SendFresh)
    (upstream : List GenerateContentResponse) (outcome : StreamOutcome)
    (hload : st.isLoading = true) :
    handleSendMessage st fresh upstream outcome = (st, none) := by
  rw [handleSendMessage, if_pos (Or.inr hload)]

/-- Witness for C4 at a state with a send in flight. -/
theorem inflight_submission_rejected_witness :
    handleSendMessage stLoading freshW upW StreamOutcome.ok = (stLoading, none) :=
  inflight_submission_rejected stLoading freshW upW StreamOutcome.ok (by decide)

/-- C5: clearing the conversation, whatever the prior history, yields exactly
one visible message — the fresh greeting with role model and no error flag —
and replaces the session handle with a newly created session for the
currently selected model variant. -/
theorem clear_chat_resets (st : AppState) (freshId : String) (ts : Nat) :
    (handleClearChat st freshId ts).messages
      = [{ id := freshId, role := Role.model, text := "Clean slate! Ready when you are.",
           image := none, timestamp := ts, isError := none }]
    ∧ (handleClearChat st freshId ts).messages.length = 1
    ∧ (handleClearChat st freshId ts).chatSession
        = some (createChatSession st.selectedModel none) :=
  ⟨rfl, rfl, rfl⟩

/-- C6: every fragment yielded by sendMessageStream is a non-empty string;
chunks whose text is empty or absent are skipped and never yielded. -/
theorem stream_yields_nonempty (chat : Chat) (message : String)
    (imageBase64 : Option String) (mimeTypeArg : Option String)
    (upstream : List GenerateContentResponse) (f : String)
    (hf : f ∈ (sendMessageStream chat message imageBase64 mimeTypeArg upstream).2) :
    f ≠ "" := by
  have hmem : f ∈ upstream.filterMap chunkYield := hf
  rcases List.mem_filterMap.mp hmem with ⟨c, -, hc⟩
  obtain ⟨ot⟩ := c
  cases ot with
  | none => simp [chunkYield] at hc
  | some t =>
    by_cases ht : t = ""
    · simp [chunkYield, ht] at hc
    · simp [chunkYield, ht] at hc
      rw [← hc]
      exact ht

/-- Witness for C6: the fragment "Hi" yielded from the sample chunk list is
non-empty. -/
theorem stream_yields_nonempty_witness :
    "Hi" ∈ (sendMessageStream (createChatSession GeminiModel.flash none) "m"
              none none upW).2
    ∧ "Hi" ≠ "" :=
  ⟨by decide,
   stream_yields_nonempty (createChatSession GeminiModel.flash none) "m"
     none none upW "Hi" (by decide)⟩

/-- C7 as stated is false at a send with an image attached whose base64
encoding is the empty string (a zero-byte image file): the accepted send
issues a plain text payload rather than a multi-part one, because the
source's `if (imageBase64)` treats the empty string as falsy. -/
theorem image_send_plain_payload_counterexample :
    stEmptyImgSend.selectedImage.isSome = true
    ∧ (handleSendMessage stEmptyImgSend freshW upW StreamOutcome.ok).2
        = some (SendPayload.plain "What is in this image?") :=
  ⟨rfl, by decide⟩

/-- C7 amended: for every accepted send with an image whose base64 encoding
is non-empty, the payload is multi-part, combining the text — or the default
prompt "What is in this image?" when the text is empty — with the encoded
image and its declared content type; for an accepted send with no image, or
with an image whose encoding is empty, a plain text payload is sent. -/
theorem send_payload_shape (st : AppState) (fresh : SendFresh)
    (upstream : List GenerateContentResponse) (outcome : StreamOutcome)
    (haccept : ¬ ((jsTrim st.inputValue = "" ∧ st.selectedImage = none) ∨ st.isLoading = true)) :
    (∀ f : JSFile, st.selectedImage = some f → f.base64 ≠ "" →
        (handleSendMessage st fresh upstream outcome).2
          = some (SendPayload.multi "user"
              [Part.text (jsOr st.inputValue "What is in this image?"),
               Part.inlineData f.ftype f.base64]))
    ∧ (∀ f : JSFile, st.selectedImage = some f → f.base64 = "" →
        (handleSendMessage st fresh upstream outcome).2
          = some (SendPayload.plain (jsOr st.inputValue "What is in this image?")))
    ∧ (st.selectedImage = none →
        (handleSendMessage st fresh upstream outcome).2
          = some (SendPayload.plain st.inputValue)) := by
  refine ⟨?_, ?_, ?_⟩
  · intro f hf hb
    rw [handleSendMessage_payload st fresh upstream outcome haccept, hf]
    simp [buildPayload, fileToGenerativePart, hb]
  · intro f hf hb
    rw [handleSendMessage_payload st fresh upstream outcome haccept, hf]
    simp [buildPayload, fileToGenerativePart, hb]
  · intro hnone
    have hne : st.inputValue ≠ "" := by
      intro h0
      exact haccept (Or.inl ⟨by rw [h0]; rfl, hnone⟩)
    rw [handleSendMessage_payload st fresh upstream outcome haccept, hnone]
    simp [buildPayload, jsOr, hne]

/-- Witness for the amended C7 at an image-only send with non-empty encoded
data. -/
theorem send_payload_shape_witness :
    (handleSendMessage stImgSend freshW upW StreamOutcome.ok).2
      = some (SendPayload.multi "user"
          [Part.text "What is in this image?", Part.inlineData "image/png" "QUJD"]) := by
  have h := (send_payload_shape stImgSend freshW upW StreamOutcome.ok (by decide)).1
    imgFileW (by decide) (by decide)
  rw [h]
  rfl

/-- C8: selecting a file whose content type is not an image type is rejected:
the whole state (message list and attached-image state included) is unchanged
and the validation alert is raised. -/
theorem nonimage_file_rejected (st : AppState) (f : JSFile) (previewUrl : String)
    (h : jsStartsWith f.ftype "image/" = false) :
    handleFileSelect st (some f) previewUrl = (st, some nonImageAlert) := by
  simp [handleFileSelect, h]

/-- Witness for C8 at a text/plain file. -/
theorem nonimage_file_rejected_witness :
    handleFileSelect stSend (some textFileW) "blob:3" = (stSend, some nonImageAlert) :=
  nonimage_file_rejected stSend textFileW "blob:3" (by decide)

/-- C9: a model-variant change creates a new session handle for the newly
selected variant (replacing the old one) and leaves the visible message list
unchanged. -/
theorem model_change_preserves_history (st : AppState) (m : GeminiModel) :
    (handleModelChange st m).messages = st.messages
    ∧ (handleModelChange st m).chatSession = some (createChatSession m none)
    ∧ (handleModelChange st m).selectedModel = m :=
  ⟨rfl, rfl, rfl⟩

/-- C10: the per-fragment update and the error-path update preserve the
length and order of the message list and rewrite only messages whose id
equals the placeholder id: a message at any position whose id differs is kept
with every field intact. -/
theorem updates_touch_only_placeholder (msgs : List Message) (mid : String) (t : String) :
    (updateMessageText msgs mid t).length = msgs.length
    ∧ (setErrorMessage msgs mid).length = msgs.length
    ∧ ∀ (i : Nat) (m : Message), msgs[i]? = some m → m.id ≠ mid →
        (updateMessageText msgs mid t)[i]? = some m
        ∧ (setErrorMessage msgs mid)[i]? = some m := by
  refine ⟨by simp [updateMessageText], by simp [setErrorMessage], ?_⟩
  intro i m hm hne
  constructor
  · rw [updateMessageText, List.getElem?_map, hm]
    simp [if_neg hne]
  · rw [setErrorMessage, List.getElem?_map, hm]
    simp [if_neg hne]

/-- Witness for C10: a message whose id differs from the placeholder id is
untouched by both updates. -/
theorem updates_touch_only_placeholder_witness :
    (updateMessageText [welcomeMessage 0] "model-1" "x")[0]? = some (welcomeMessage 0)
    ∧ (setErrorMessage [welcomeMessage 0] "model-1")[0]? = some (welcomeMessage 0) :=
  (updates_touch_only_placeholder [welcomeMessage 0] "model-1" "x").2.2 0
    (welcomeMessage 0) (by decide) (by decide)

end Gemini
